import Mathlib

/-!
Shallow embedding of the `smbios_tables` crate (structure-encoding engine for
SMBIOS tables), and proofs about it.

Conventions of the embedding:
* A `Sink` receiving bytes is modelled as the `List Nat` of bytes emitted, in
  order; `word`/`dword`/`qword` emit little-endian bytes via `le`.
* Rust machine integers are `Nat`; a write of a `uN` value into a field of
  width `w` bytes serializes as `le w n`, which takes `n` modulo `2^(8*w)`
  byte by byte, exactly as `to_le_bytes` does.
* Byte arrays (`[u8; k]`) are modelled as the natural number whose `k`
  little-endian bytes are the array's bytes.
* Field-value enumerations (types.rs) are stored as their wire codes, so an
  enum-typed field is a `Nat` initialized to the code of the enum's
  `#[default]` variant.
* Rust `String` values appear only through `as_bytes()`, so a string is
  modelled as its byte list (`List Nat`).
* A Rust `panic!` (a failed `assert!` or `try_into().unwrap()`) makes the
  modelled operation return `none`; operations that cannot panic are total.
* `repr(C, packed)` structs are Lean structures; `as_bytes` (zerocopy) is an
  explicit field-by-field little-endian byte listing with no padding.
-/

set_option maxRecDepth 8192

namespace Smbios

/-- Model of `to_le_bytes` for a `w`-byte unsigned integer: the list of `w` bytes of
`n`, least significant first (each byte is `< 256`). -/
def le : Nat → Nat → List Nat
  | 0, _ => []
  | w + 1, n => n % 256 :: le w (n / 256)

/-- Model of `u8::wrapping_add`: byte addition modulo 256. -/
def wadd (a b : Nat) : Nat := (a + b) % 256

/-! Section: entry point (SMBIOS 3.0 64-bit entry point structure) -/

-- const SMBIOS_MAJOR: u8 = 3;
def SMBIOS_MAJOR : Nat := 3
-- const SMBIOS_MINOR: u8 = 7;
def SMBIOS_MINOR : Nat := 7
-- const SMBIOS_DOCREV: u8 = 0;
def SMBIOS_DOCREV : Nat := 0
-- const SMBIOS_REVISION: u8 = 1;
def SMBIOS_REVISION : Nat := 1

structure EntryPoint where
  anchor : List Nat        -- [u8; 5]
  checksum : Nat           -- u8
  length : Nat             -- u8
  major_version : Nat      -- u8
  minor_version : Nat      -- u8
  docrev : Nat             -- u8
  revision : Nat           -- u8
  reserved : Nat           -- u8 (`_reserved` in the source)
  structure_max_size : Nat -- U32 (little-endian)
  table_address : Nat      -- U64 (little-endian)
  deriving Repr, DecidableEq

/-- Structure `EntryPoint` is `repr(C, packed)` with `AsBytes`: its bytes are the fields
in declared order, multi-byte fields little-endian. -/
def EntryPoint.as_bytes (e : EntryPoint) : List Nat :=
  e.anchor ++ [e.checksum, e.length, e.major_version, e.minor_version,
    e.docrev, e.revision, e.reserved]
    ++ le 4 e.structure_max_size ++ le 8 e.table_address

/-- The `let mut s = Self { .. }` record built at the start of
`EntryPoint::new`, before the checksum byte is patched. -/
def EntryPoint.base (structure_max_size : Nat) (table_address : Nat) :
    EntryPoint :=
  { anchor := [0x5f, 0x53, 0x4d, 0x33, 0x5f]  -- *b"_SM3_"
    checksum := 0
    length := 0x18  -- size_of::<Self>()
    major_version := SMBIOS_MAJOR
    minor_version := SMBIOS_MINOR
    docrev := SMBIOS_DOCREV
    revision := SMBIOS_REVISION
    reserved := 0
    structure_max_size := structure_max_size
    table_address := table_address }

/-- Model of `EntryPoint::new`: build the structure with checksum 0, then set the
checksum to the byte that makes the wrapping byte-sum of the whole structure
zero (`0u8.wrapping_sub(sum)`). -/
def EntryPoint.new (structure_max_size : Nat) (table_address : Nat) :
    EntryPoint :=
  let sum :=
    (EntryPoint.base structure_max_size table_address).as_bytes.foldl wadd 0
  { EntryPoint.base structure_max_size table_address with
      checksum := (256 - sum) % 256 }

/-- Model of `impl SmbiosStructure for EntryPoint`: serialization emits `as_bytes`. -/
def EntryPoint.serialize (e : EntryPoint) : List Nat := e.as_bytes

/-! Section: boot status (type 32, System Boot Information) -/

/-- Enum `BootStatus` from types.rs; the borrowed `&[u8]` payloads are byte
lists. -/
inductive BootStatus where
  | noErrorsDetected
  | noBootableMedia
  | normalOperatingSystemFailedToLoad
  | firmwareDetectedHardwareFailure
  | operatingSystemDetectedHardwareFailure
  | userRequestedBoot
  | systemSecurityViolation
  | previouslyRequestedImage (extra : List Nat)
  | systemWatchdogTimer
  | vendorSpecific (code : Nat) (extra : List Nat)
  | productSpecific (code : Nat) (extra : List Nat)
  deriving Repr, DecidableEq

structure SystemBootInformation where
  handle : Nat  -- u16
  status : BootStatus
  deriving Repr, DecidableEq

/-- The `match &self.status` block of `SystemBootInformation::serialize`:
the bytes it appends after the 6 reserved bytes, or `none` when one of the
`assert!`s on the vendor/product code fails. -/
def bootStatusBytes : BootStatus → Option (List Nat)
  | .noErrorsDetected => some [0]
  | .noBootableMedia => some [1]
  | .normalOperatingSystemFailedToLoad => some [2]
  | .firmwareDetectedHardwareFailure => some [3]
  | .operatingSystemDetectedHardwareFailure => some [4]
  | .userRequestedBoot => some [5]
  | .systemSecurityViolation => some [6]
  | .previouslyRequestedImage extra => some (7 :: extra)
  | .systemWatchdogTimer => some [8]
  | .vendorSpecific code extra =>
      if 128 ≤ code ∧ code ≤ 191 then some (code :: extra) else none
  | .productSpecific code extra =>
      if 192 ≤ code then some (code :: extra) else none

/-- Model of `SystemBootInformation::serialize`: type byte 32, a placeholder length
byte, the handle word, 6 reserved zero bytes, the status bytes; then the
length byte is patched to `output.len().try_into().unwrap()` (which panics
when the length exceeds 255) and two trailing zero bytes are appended. -/
def SystemBootInformation.serialize (s : SystemBootInformation) :
    Option (List Nat) :=
  match bootStatusBytes s.status with
  | none => none
  | some sb =>
    let output := ([32, 0] ++ le 2 s.handle ++ List.replicate 6 0) ++ sb
    if output.length ≤ 255 then
      some (output.set 1 output.length ++ [0, 0])
    else
      none

/-- The status byte serialized for each variant (used to state theorems). -/
def statusByte : BootStatus → Nat
  | .noErrorsDetected => 0
  | .noBootableMedia => 1
  | .normalOperatingSystemFailedToLoad => 2
  | .firmwareDetectedHardwareFailure => 3
  | .operatingSystemDetectedHardwareFailure => 4
  | .userRequestedBoot => 5
  | .systemSecurityViolation => 6
  | .previouslyRequestedImage _ => 7
  | .systemWatchdogTimer => 8
  | .vendorSpecific code _ => code
  | .productSpecific code _ => code

/-- The trailing payload bytes of each variant (`[]` for the parameterless
outcomes; used to state theorems). -/
def statusPayload : BootStatus → List Nat
  | .previouslyRequestedImage extra => extra
  | .vendorSpecific _ extra => extra
  | .productSpecific _ extra => extra
  | _ => []

/-- The documented code-range discipline on `BootStatus` variants
(types.rs: vendor code must satisfy 128 <= code <= 191, product code must
satisfy code >= 192). -/
def BootStatus.valid : BootStatus → Prop
  | .vendorSpecific code _ => 128 ≤ code ∧ code ≤ 191
  | .productSpecific code _ => 192 ≤ code
  | _ => True

/-! Section: the generic structure facility (macros.rs) -/

/-- Model of `add_string` from `simple_smbios_structure` (macros.rs): push the string,
then return `self.strings.len().try_into().unwrap()` as the new 1-based
index; the `u8` conversion panics when the new length exceeds 255. -/
def add_string (strings : List (List Nat)) (s : List Nat) :
    Option (List (List Nat) × Nat) :=
  let strings2 := strings ++ [s]
  if strings2.length ≤ 255 then some (strings2, strings2.length) else none

/-- Model of `serialize_structure_with_strings` (macros.rs): emit the packed record
bytes, then each string followed by a zero byte, then a zero byte, then one
more zero byte when no strings were added. -/
def serialize_structure_with_strings (record : List Nat)
    (strings : List (List Nat)) : List Nat :=
  record ++ (strings.flatMap fun s => s ++ [0]) ++ [0]
    ++ if strings.isEmpty then [0] else []

/-! Section: OEM strings (type 11) -/

structure OemStrings where
  handle : Nat  -- u16
  strings : List (List Nat)
  deriving Repr, DecidableEq

/-- Model of `OemStrings::new`. -/
def OemStrings.new (handle : Nat) : OemStrings := ⟨handle, []⟩

/-- Model of `OemStrings::add_string`: `self.strings.push(s.into())` — a plain push
with no index computation, so it cannot panic and returns nothing. -/
def OemStrings.add_string (o : OemStrings) (s : List Nat) : OemStrings :=
  ⟨o.handle, o.strings ++ [s]⟩

/-- Model of `impl SmbiosStructure for OemStrings`: type byte 11, length byte 5, the
handle word, `self.strings.len().try_into().unwrap()` as the count byte
(panics when the count exceeds 255), each string followed by a zero byte and
one final zero byte. -/
def OemStrings.serialize (o : OemStrings) : Option (List Nat) :=
  if o.strings.length ≤ 255 then
    some ([11, 5] ++ le 2 o.handle ++ [o.strings.length]
      ++ (o.strings.flatMap fun s => s ++ [0]) ++ [0])
  else
    none

/-! Section: generic-facility record types (tables.rs)

Each `simple_smbios_structure!` invocation generates a packed inner data
struct with the 4-byte header (`type`, `length`, `handle`) prepended,
a `new(handle)` that sets `type`, `length = size_of::<Self>()` and leaves
every other field at its `Default` (0 for integers and bit fields, the
`#[default]` variant's code for enumerations), and zerocopy `AsBytes`
serialization of the packed fields in declared order. -/

structure Type0Data where
  type : Nat                          -- u8
  length : Nat                        -- u8
  handle : Nat                        -- U16
  vendor : Nat                        -- StringIndex (u8)
  bios_version : Nat                  -- StringIndex
  bios_starting_address_segment : Nat -- U16
  bios_release_date : Nat             -- StringIndex
  bios_rom_size : Nat                 -- u8
  bios_characteristics : Nat          -- U64
  bios_characteristics_ex1 : Nat      -- u8
  bios_characteristics_ex2 : Nat      -- u8
  deriving Repr, DecidableEq

def Type0Data.new (handle : Nat) : Type0Data :=
  { type := 0
    length := 0x14  -- size_of::<Type0Data>() as u8
    handle := handle
    vendor := 0
    bios_version := 0
    bios_starting_address_segment := 0
    bios_release_date := 0
    bios_rom_size := 0
    bios_characteristics := 0
    bios_characteristics_ex1 := 0
    bios_characteristics_ex2 := 0 }

def Type0Data.as_bytes (d : Type0Data) : List Nat :=
  le 1 d.type ++ le 1 d.length ++ le 2 d.handle
    ++ le 1 d.vendor ++ le 1 d.bios_version
    ++ le 2 d.bios_starting_address_segment ++ le 1 d.bios_release_date
    ++ le 1 d.bios_rom_size ++ le 8 d.bios_characteristics
    ++ le 1 d.bios_characteristics_ex1 ++ le 1 d.bios_characteristics_ex2

structure Type1Data where
  type : Nat           -- u8
  length : Nat         -- u8
  handle : Nat         -- U16
  manufacturer : Nat   -- StringIndex
  product_name : Nat   -- StringIndex
  version : Nat        -- StringIndex
  serial_number : Nat  -- StringIndex
  uuid : Nat           -- [u8; 16]
  wakeup_type : Nat    -- WakeupType (u8)
  sku_number : Nat     -- StringIndex
  family : Nat         -- StringIndex
  deriving Repr, DecidableEq

def Type1Data.new (handle : Nat) : Type1Data :=
  { type := 1
    length := 0x1b  -- size_of::<Type1Data>() as u8
    handle := handle
    manufacturer := 0
    product_name := 0
    version := 0
    serial_number := 0
    uuid := 0
    wakeup_type := 2  -- WakeupType::Unknown
    sku_number := 0
    family := 0 }

def Type1Data.as_bytes (d : Type1Data) : List Nat :=
  le 1 d.type ++ le 1 d.length ++ le 2 d.handle
    ++ le 1 d.manufacturer ++ le 1 d.product_name ++ le 1 d.version
    ++ le 1 d.serial_number ++ le 16 d.uuid ++ le 1 d.wakeup_type
    ++ le 1 d.sku_number ++ le 1 d.family

structure Type4Data where
  type : Nat                       -- u8
  length : Nat                     -- u8
  handle : Nat                     -- U16
  socket_designation : Nat         -- StringIndex
  processor_type : Nat             -- ProcessorType (u8)
  processor_family : Nat           -- ProcessorFamily (u8)
  processor_manufacturer : Nat     -- StringIndex
  processor_id : Nat               -- U64
  processor_version : Nat          -- StringIndex
  voltage : Nat                    -- u8
  external_clock : Nat             -- U16
  max_speed : Nat                  -- U16
  current_speed : Nat              -- U16
  status : Nat                     -- u8
  processor_ugprade : Nat          -- ProcessorUpgrade (u8); field name as in the source
  l1_cache_handle : Nat            -- StructureHandle (U16)
  l2_cache_handle : Nat            -- StructureHandle (U16)
  l3_cache_handle : Nat            -- StructureHandle (U16)
  serial_number : Nat              -- StringIndex
  asset_tag : Nat                  -- StringIndex
  part_number : Nat                -- StringIndex
  core_count : Nat                 -- u8
  core_enabled : Nat               -- u8
  thread_count : Nat               -- u8
  processor_characteristics : Nat  -- U16
  processor_family2 : Nat          -- ProcessorFamily2 (u16)
  core_count2 : Nat                -- U16
  core_enabled2 : Nat              -- U16
  thread_count2 : Nat              -- U16
  thread_enabled : Nat             -- U16
  deriving Repr, DecidableEq

def Type4Data.new (handle : Nat) : Type4Data :=
  { type := 4
    length := 0x32  -- size_of::<Type4Data>() as u8
    handle := handle
    socket_designation := 0
    processor_type := 2       -- ProcessorType::Unknown
    processor_family := 2     -- ProcessorFamily::Unknown
    processor_manufacturer := 0
    processor_id := 0
    processor_version := 0
    voltage := 0
    external_clock := 0
    max_speed := 0
    current_speed := 0
    status := 0
    processor_ugprade := 2    -- ProcessorUpgrade::Unknown
    l1_cache_handle := 0
    l2_cache_handle := 0
    l3_cache_handle := 0
    serial_number := 0
    asset_tag := 0
    part_number := 0
    core_count := 0
    core_enabled := 0
    thread_count := 0
    processor_characteristics := 0
    processor_family2 := 0xfffe  -- ProcessorFamily2::Reserved
    core_count2 := 0
    core_enabled2 := 0
    thread_count2 := 0
    thread_enabled := 0 }

def Type4Data.as_bytes (d : Type4Data) : List Nat :=
  le 1 d.type ++ le 1 d.length ++ le 2 d.handle
    ++ le 1 d.socket_designation ++ le 1 d.processor_type
    ++ le 1 d.processor_family ++ le 1 d.processor_manufacturer
    ++ le 8 d.processor_id ++ le 1 d.processor_version ++ le 1 d.voltage
    ++ le 2 d.external_clock ++ le 2 d.max_speed ++ le 2 d.current_speed
    ++ le 1 d.status ++ le 1 d.processor_ugprade
    ++ le 2 d.l1_cache_handle ++ le 2 d.l2_cache_handle
    ++ le 2 d.l3_cache_handle ++ le 1 d.serial_number ++ le 1 d.asset_tag
    ++ le 1 d.part_number ++ le 1 d.core_count ++ le 1 d.core_enabled
    ++ le 1 d.thread_count ++ le 2 d.processor_characteristics
    ++ le 2 d.processor_family2 ++ le 2 d.core_count2
    ++ le 2 d.core_enabled2 ++ le 2 d.thread_count2 ++ le 2 d.thread_enabled

structure Type7Data where
  type : Nat                  -- u8
  length : Nat                -- u8
  handle : Nat                -- U16
  socket_designation : Nat    -- StringIndex
  cache_configuration : Nat   -- CacheConfiguration (u16 bitfield)
  maximum_cache_size : Nat    -- U16
  installed_size : Nat        -- U16
  supported_sram_type : Nat   -- SramType (u16)
  current_sram_type : Nat     -- SramType (u16)
  cache_speed : Nat           -- u8
  error_correction_type : Nat -- EccType (u8)
  system_cache_type : Nat     -- SystemCacheType (u8)
  associativity : Nat         -- Associativity (u8)
  maximum_cache_size2 : Nat   -- U32
  installed_cache_size2 : Nat -- U32
  deriving Repr, DecidableEq

def Type7Data.new (handle : Nat) : Type7Data :=
  { type := 7
    length := 0x1b  -- size_of::<Type7Data>() as u8
    handle := handle
    socket_designation := 0
    cache_configuration := 0
    maximum_cache_size := 0
    installed_size := 0
    supported_sram_type := 2  -- SramType::Unknown (1 << 1)
    current_sram_type := 2    -- SramType::Unknown (1 << 1)
    cache_speed := 0
    error_correction_type := 2  -- EccType::Unknown
    system_cache_type := 2      -- SystemCacheType::Unknown
    associativity := 2          -- Associativity::Unknown
    maximum_cache_size2 := 0
    installed_cache_size2 := 0 }

def Type7Data.as_bytes (d : Type7Data) : List Nat :=
  le 1 d.type ++ le 1 d.length ++ le 2 d.handle
    ++ le 1 d.socket_designation ++ le 2 d.cache_configuration
    ++ le 2 d.maximum_cache_size ++ le 2 d.installed_size
    ++ le 2 d.supported_sram_type ++ le 2 d.current_sram_type
    ++ le 1 d.cache_speed ++ le 1 d.error_correction_type
    ++ le 1 d.system_cache_type ++ le 1 d.associativity
    ++ le 4 d.maximum_cache_size2 ++ le 4 d.installed_cache_size2

structure Type9Data where
  type : Nat                  -- u8
  length : Nat                -- u8
  handle : Nat                -- U16
  slot_designation : Nat      -- StringIndex
  slot_type : Nat             -- SlotType (u8)
  slot_data_bus_width : Nat   -- SlotWidth (u8)
  current_usage : Nat         -- CurrentUsage (u8)
  slot_length : Nat           -- SlotLength (u8)
  slot_id : Nat               -- U16
  slot_characteristics1 : Nat -- u8
  slot_characteristics2 : Nat -- u8
  segment_group_number : Nat  -- U16
  bus_number : Nat            -- u8
  devfn : Nat                 -- u8
  data_bus_width : Nat        -- u8
  peer_group_count : Nat      -- u8
  deriving Repr, DecidableEq

def Type9Data.new (handle : Nat) : Type9Data :=
  { type := 9
    length := 0x13  -- size_of::<Type9Data>() as u8
    handle := handle
    slot_designation := 0
    slot_type := 2            -- SlotType::Unknown
    slot_data_bus_width := 2  -- SlotWidth::Unknown
    current_usage := 2        -- CurrentUsage::Unknown
    slot_length := 2          -- SlotLength::Unknown
    slot_id := 0
    slot_characteristics1 := 0
    slot_characteristics2 := 0
    segment_group_number := 0
    bus_number := 0
    devfn := 0
    data_bus_width := 0
    peer_group_count := 0 }

def Type9Data.as_bytes (d : Type9Data) : List Nat :=
  le 1 d.type ++ le 1 d.length ++ le 2 d.handle
    ++ le 1 d.slot_designation ++ le 1 d.slot_type
    ++ le 1 d.slot_data_bus_width ++ le 1 d.current_usage
    ++ le 1 d.slot_length ++ le 2 d.slot_id
    ++ le 1 d.slot_characteristics1 ++ le 1 d.slot_characteristics2
    ++ le 2 d.segment_group_number ++ le 1 d.bus_number ++ le 1 d.devfn
    ++ le 1 d.data_bus_width ++ le 1 d.peer_group_count

-- fn to_mb(n: u64) -> u64 { n >> 20 }
def to_mb (n : Nat) : Nat := n / 2 ^ 20
-- fn mb(n: u64) -> u64 { n << 20 }
def mb (n : Nat) : Nat := n * 2 ^ 20
-- fn gb(n: u64) -> u64 { n << 30 }
def gb (n : Nat) : Nat := n * 2 ^ 30
-- fn tb(n: u64) -> u64 { n << 40 }
def tb (n : Nat) : Nat := n * 2 ^ 40

structure Type16Data where
  type : Nat                      -- u8
  length : Nat                    -- u8
  handle : Nat                    -- U16
  location : Nat                  -- ArrayLocation (u8)
  array_use : Nat                 -- ArrayUse (u8)
  memory_error_correction : Nat   -- ErrorCorrectionType (u8)
  maximum_capacity : Nat          -- U32
  error_information_handle : Nat  -- StructureHandle (U16)
  number_of_memory_devices : Nat  -- U16
  extended_maximum_capacity : Nat -- U64
  deriving Repr, DecidableEq

def Type16Data.new (handle : Nat) : Type16Data :=
  { type := 16
    length := 0x17  -- size_of::<Type16Data>() as u8
    handle := handle
    location := 2                 -- ArrayLocation::Unknown
    array_use := 2                -- ArrayUse::Unknown
    memory_error_correction := 2  -- ErrorCorrectionType::Unknown
    maximum_capacity := 0
    error_information_handle := 0
    number_of_memory_devices := 0
    extended_maximum_capacity := 0 }

def Type16Data.as_bytes (d : Type16Data) : List Nat :=
  le 1 d.type ++ le 1 d.length ++ le 2 d.handle
    ++ le 1 d.location ++ le 1 d.array_use
    ++ le 1 d.memory_error_correction ++ le 4 d.maximum_capacity
    ++ le 2 d.error_information_handle ++ le 2 d.number_of_memory_devices
    ++ le 8 d.extended_maximum_capacity

/-- Model of `PhysicalMemoryArray::set_memory_capacity`: capacities of 2 TiB or more
go through the `0x8000_0000` sentinel with the byte count in the extended
field; smaller capacities are stored in kilobytes in the 32-bit field
(`(bytes / 1024).try_into().unwrap()`) with the extended field zeroed. -/
def PhysicalMemoryArray.set_memory_capacity (d : Type16Data)
    (memory_capacity_bytes : Nat) : Option Type16Data :=
  if memory_capacity_bytes ≥ tb 2 then
    some { d with
      maximum_capacity := 0x80000000  -- 0x8000_0000 in the source
      extended_maximum_capacity := memory_capacity_bytes }
  else
    let cap_kb := memory_capacity_bytes / 1024
    if cap_kb < 2 ^ 32 then
      some { d with
        maximum_capacity := cap_kb
        extended_maximum_capacity := 0 }
    else
      none

structure Type17Data where
  type : Nat                              -- u8
  length : Nat                            -- u8
  handle : Nat                            -- U16
  physical_memory_array_handle : Nat      -- StructureHandle (U16)
  error_information_handle : Nat          -- StructureHandle (U16)
  total_width : Nat                       -- U16
  data_width : Nat                        -- U16
  size : Nat                              -- U16
  form_factor : Nat                       -- FormFactor (u8)
  device_set : Nat                        -- u8
  device_locator : Nat                    -- StringIndex
  bank_locator : Nat                      -- StringIndex
  memory_type : Nat                       -- MemoryType (u8)
  type_detail : Nat                       -- U16
  speed : Nat                             -- U16
  manufacturer : Nat                      -- StringIndex
  serial_number : Nat                     -- StringIndex
  asset_tag : Nat                         -- StringIndex
  part_number : Nat                       -- StringIndex
  attributes : Nat                        -- u8
  extended_size : Nat                     -- U32
  configured_memory_speed : Nat           -- U16
  minimum_voltage : Nat                   -- U16
  maximum_voltage : Nat                   -- U16
  configured_voltage : Nat                -- U16
  memory_technology : Nat                 -- MemoryTechnology (u8)
  memory_operating_mode : Nat             -- U16
  firmware_version : Nat                  -- StringIndex
  module_manufacturer_id : Nat            -- U16
  module_product_id : Nat                 -- U16
  memory_subsystem_controller_manufacturer_id : Nat -- U16
  memory_subsystem_controller_product_id : Nat      -- U16
  non_volatile_size : Nat                 -- U64
  volatile_size : Nat                     -- U64
  cache_size : Nat                        -- U64
  logical_size : Nat                      -- U64
  extended_speed : Nat                    -- U32
  extended_configured_memory_speed : Nat  -- U32
  pmic0_manufacturer_id : Nat             -- U16
  pmic0_revision_number : Nat             -- U16
  rcd_manufacturer_id : Nat               -- U16
  rcd_revision_number : Nat               -- U16
  deriving Repr, DecidableEq

def Type17Data.new (handle : Nat) : Type17Data :=
  { type := 17
    length := 0x64  -- size_of::<Type17Data>() as u8
    handle := handle
    physical_memory_array_handle := 0
    error_information_handle := 0
    total_width := 0
    data_width := 0
    size := 0
    form_factor := 2       -- FormFactor::Unknown
    device_set := 0
    device_locator := 0
    bank_locator := 0
    memory_type := 2       -- MemoryType::Unknown
    type_detail := 0
    speed := 0
    manufacturer := 0
    serial_number := 0
    asset_tag := 0
    part_number := 0
    attributes := 0
    extended_size := 0
    configured_memory_speed := 0
    minimum_voltage := 0
    maximum_voltage := 0
    configured_voltage := 0
    memory_technology := 2 -- MemoryTechnology::Unknown
    memory_operating_mode := 0
    firmware_version := 0
    module_manufacturer_id := 0
    module_product_id := 0
    memory_subsystem_controller_manufacturer_id := 0
    memory_subsystem_controller_product_id := 0
    non_volatile_size := 0
    volatile_size := 0
    cache_size := 0
    logical_size := 0
    extended_speed := 0
    extended_configured_memory_speed := 0
    pmic0_manufacturer_id := 0
    pmic0_revision_number := 0
    rcd_manufacturer_id := 0
    rcd_revision_number := 0 }

def Type17Data.as_bytes (d : Type17Data) : List Nat :=
  le 1 d.type ++ le 1 d.length ++ le 2 d.handle
    ++ le 2 d.physical_memory_array_handle
    ++ le 2 d.error_information_handle ++ le 2 d.total_width
    ++ le 2 d.data_width ++ le 2 d.size ++ le 1 d.form_factor
    ++ le 1 d.device_set ++ le 1 d.device_locator ++ le 1 d.bank_locator
    ++ le 1 d.memory_type ++ le 2 d.type_detail ++ le 2 d.speed
    ++ le 1 d.manufacturer ++ le 1 d.serial_number ++ le 1 d.asset_tag
    ++ le 1 d.part_number ++ le 1 d.attributes ++ le 4 d.extended_size
    ++ le 2 d.configured_memory_speed ++ le 2 d.minimum_voltage
    ++ le 2 d.maximum_voltage ++ le 2 d.configured_voltage
    ++ le 1 d.memory_technology ++ le 2 d.memory_operating_mode
    ++ le 1 d.firmware_version ++ le 2 d.module_manufacturer_id
    ++ le 2 d.module_product_id
    ++ le 2 d.memory_subsystem_controller_manufacturer_id
    ++ le 2 d.memory_subsystem_controller_product_id
    ++ le 8 d.non_volatile_size ++ le 8 d.volatile_size
    ++ le 8 d.cache_size ++ le 8 d.logical_size ++ le 4 d.extended_speed
    ++ le 4 d.extended_configured_memory_speed
    ++ le 2 d.pmic0_manufacturer_id ++ le 2 d.pmic0_revision_number
    ++ le 2 d.rcd_manufacturer_id ++ le 2 d.rcd_revision_number

/-- Model of `MemoryDevice::set_memory_size`: sizes of at least 32 GiB - 1 MiB store
the `0x7fff` sentinel in `size` and the megabyte count in `extended_size`
(`to_mb(size).try_into::<u32>().unwrap()`); smaller sizes store the megabyte
count in `size` (`try_into::<u16>().unwrap()`); `None` stores `0xffff` in
`size`. No branch touches any other field. -/
def MemoryDevice.set_memory_size (d : Type17Data) (size : Option Nat) :
    Option Type17Data :=
  match size with
  | some size =>
    if size ≥ gb 32 - mb 1 then
      let size_mb := to_mb size
      if size_mb < 2 ^ 32 then
        some { d with size := 0x7fff, extended_size := size_mb }
      else
        none
    else
      let size_mb := to_mb size
      if size_mb < 2 ^ 16 then
        some { d with size := size_mb }
      else
        none
  | none => some { d with size := 0xffff }

structure Type19Data where
  type : Nat                      -- u8
  length : Nat                    -- u8
  handle : Nat                    -- U16
  starting_address : Nat          -- U32
  ending_address : Nat            -- U32
  memory_array_handle : Nat       -- StructureHandle (U16)
  partition_width : Nat           -- u8
  extended_starting_address : Nat -- U64
  extended_ending_address : Nat   -- U64
  deriving Repr, DecidableEq

def Type19Data.new (handle : Nat) : Type19Data :=
  { type := 19
    length := 0x1f  -- size_of::<Type19Data>() as u8
    handle := handle
    starting_address := 0
    ending_address := 0
    memory_array_handle := 0
    partition_width := 0
    extended_starting_address := 0
    extended_ending_address := 0 }

def Type19Data.as_bytes (d : Type19Data) : List Nat :=
  le 1 d.type ++ le 1 d.length ++ le 2 d.handle
    ++ le 4 d.starting_address ++ le 4 d.ending_address
    ++ le 2 d.memory_array_handle ++ le 1 d.partition_width
    ++ le 8 d.extended_starting_address ++ le 8 d.extended_ending_address

structure Type20Data where
  type : Nat                               -- u8
  length : Nat                             -- u8
  handle : Nat                             -- U16
  starting_address : Nat                   -- U32
  ending_address : Nat                     -- U32
  memory_device_handle : Nat               -- StructureHandle (U16)
  memory_array_mapped_address_handle : Nat -- StructureHandle (U16)
  partition_row_position : Nat             -- PartitionRowPosition (u8)
  interleave_position : Nat                -- u8
  interleaved_data_depth : Nat             -- u8
  extended_starting_address : Nat          -- U64
  extended_ending_address : Nat            -- U64
  deriving Repr, DecidableEq

def Type20Data.new (handle : Nat) : Type20Data :=
  { type := 20
    length := 0x23  -- size_of::<Type20Data>() as u8
    handle := handle
    starting_address := 0
    ending_address := 0
    memory_device_handle := 0
    memory_array_mapped_address_handle := 0
    partition_row_position := 0xff  -- PartitionRowPosition::Unknown
    interleave_position := 0
    interleaved_data_depth := 0
    extended_starting_address := 0
    extended_ending_address := 0 }

def Type20Data.as_bytes (d : Type20Data) : List Nat :=
  le 1 d.type ++ le 1 d.length ++ le 2 d.handle
    ++ le 4 d.starting_address ++ le 4 d.ending_address
    ++ le 2 d.memory_device_handle
    ++ le 2 d.memory_array_mapped_address_handle
    ++ le 1 d.partition_row_position ++ le 1 d.interleave_position
    ++ le 1 d.interleaved_data_depth ++ le 8 d.extended_starting_address
    ++ le 8 d.extended_ending_address

structure RiscvType44Data where
  type : Nat                      -- u8
  length : Nat                    -- u8
  handle : Nat                    -- U16
  referenced_handle : Nat         -- StructureHandle (U16)
  revision : Nat                  -- U16
  structure_length : Nat          -- u8
  hart_id : Nat                   -- U128
  boot_hart : Nat                 -- u8
  mvendorid : Nat                 -- U128
  marchid : Nat                   -- U128
  mimplid : Nat                   -- U128
  isa_supported : Nat             -- U32
  privilege_level_supported : Nat -- u8
  m_exception_delegation : Nat    -- U128
  m_interrupt_delegation : Nat    -- U128
  xlen : Nat                      -- Xlen (u8)
  mxlen : Nat                     -- Xlen (u8)
  reserved : Nat                  -- u8
  sxlen : Nat                     -- Xlen (u8)
  uxlen : Nat                     -- Xlen (u8)
  deriving Repr, DecidableEq

def RiscvType44Data.new (handle : Nat) : RiscvType44Data :=
  { type := 44
    length := 0x74  -- size_of::<RiscvType44Data>() as u8
    handle := handle
    referenced_handle := 0
    revision := 0
    structure_length := 0
    hart_id := 0
    boot_hart := 0
    mvendorid := 0
    marchid := 0
    mimplid := 0
    isa_supported := 0
    privilege_level_supported := 0
    m_exception_delegation := 0
    m_interrupt_delegation := 0
    xlen := 2   -- Xlen::Xlen64
    mxlen := 2  -- Xlen::Xlen64
    reserved := 0
    sxlen := 2  -- Xlen::Xlen64
    uxlen := 2  -- Xlen::Xlen64
  }

def RiscvType44Data.as_bytes (d : RiscvType44Data) : List Nat :=
  le 1 d.type ++ le 1 d.length ++ le 2 d.handle
    ++ le 2 d.referenced_handle ++ le 2 d.revision
    ++ le 1 d.structure_length ++ le 16 d.hart_id ++ le 1 d.boot_hart
    ++ le 16 d.mvendorid ++ le 16 d.marchid ++ le 16 d.mimplid
    ++ le 4 d.isa_supported ++ le 1 d.privilege_level_supported
    ++ le 16 d.m_exception_delegation ++ le 16 d.m_interrupt_delegation
    ++ le 1 d.xlen ++ le 1 d.mxlen ++ le 1 d.reserved ++ le 1 d.sxlen
    ++ le 1 d.uxlen

/-! Section: helper lemmas -/

theorem le_length (w n : Nat) : (le w n).length = w := by
  induction w generalizing n with
  | zero => rfl
  | succ w ih => simp [le, ih]

theorem foldl_wadd (l : List Nat) : ∀ a : Nat,
    l.foldl wadd (a % 256) = (a + l.sum) % 256 := by
  induction l with
  | nil => intro a; simp
  | cons b t ih =>
    intro a
    have h1 : wadd (a % 256) b = (a % 256 + b) % 256 := rfl
    calc (b :: t).foldl wadd (a % 256)
        = t.foldl wadd ((a % 256 + b) % 256) := by
          simp [List.foldl, h1]
      _ = ((a % 256 + b) + t.sum) % 256 := ih (a % 256 + b)
      _ = (a + (b :: t).sum) % 256 := by
          simp only [List.sum_cons]
          omega

theorem foldl_wadd_zero (l : List Nat) : l.foldl wadd 0 = l.sum % 256 := by
  have := foldl_wadd l 0
  simpa using this

theorem entryPoint_base_sum (m a : Nat) :
    (EntryPoint.base m a).as_bytes.sum
      = 436 + (le 4 m).sum + (le 8 a).sum := by
  simp [EntryPoint.base, EntryPoint.as_bytes, SMBIOS_MAJOR, SMBIOS_MINOR,
    SMBIOS_DOCREV, SMBIOS_REVISION]
  omega

theorem entryPoint_new_checksum (m a : Nat) :
    (EntryPoint.new m a).checksum
      = (256 - (EntryPoint.base m a).as_bytes.sum % 256) % 256 := by
  simp only [EntryPoint.new]
  rw [foldl_wadd_zero]

theorem entryPoint_new_sum (m a : Nat) :
    (EntryPoint.new m a).as_bytes.sum
      = 436 + (EntryPoint.new m a).checksum + (le 4 m).sum + (le 8 a).sum := by
  simp only [EntryPoint.new, EntryPoint.base, EntryPoint.as_bytes]
  simp [SMBIOS_MAJOR, SMBIOS_MINOR, SMBIOS_DOCREV, SMBIOS_REVISION]
  omega

theorem entryPoint_strip_checksum (m a : Nat) :
    ({ EntryPoint.new m a with checksum := 0 } : EntryPoint)
      = EntryPoint.base m a := rfl

theorem bootStatusBytes_of_valid (st : BootStatus) (hv : st.valid) :
    bootStatusBytes st = some (statusByte st :: statusPayload st) := by
  cases st <;> simp_all [bootStatusBytes, BootStatus.valid, statusByte,
    statusPayload]

theorem bootSerialize_eq (h : Nat) (st : BootStatus)
    (hv : st.valid) (hlen : (statusPayload st).length ≤ 244) :
    SystemBootInformation.serialize ⟨h, st⟩
      = some ([32, 11 + (statusPayload st).length] ++ le 2 h
          ++ List.replicate 6 0 ++ [statusByte st] ++ statusPayload st
          ++ [0, 0]) := by
  have hb := bootStatusBytes_of_valid st hv
  simp only [SystemBootInformation.serialize, hb]
  have hLen : (([32, 0] ++ le 2 h ++ List.replicate 6 0)
      ++ statusByte st :: statusPayload st).length
      = 11 + (statusPayload st).length := by
    simp [le_length]
    omega
  simp only [hLen]
  rw [if_pos (by omega)]
  simp [le, List.replicate, List.set]

/-! Section: claim theorems -/

/-- C3 (confirmed). For every `(structure_max_size, table_address)` pair,
`EntryPoint::new` produces a structure whose serialization is 24 bytes long,
whose serialized bytes sum to 0 modulo 256, and whose checksum byte is the
two's-complement of the 8-bit wrapping sum of the other 23 bytes (the bytes
of the structure with the checksum field zeroed). -/
theorem entry_point_checksum (m a : Nat) :
    (EntryPoint.serialize (EntryPoint.new m a)).length = 24 ∧
    (EntryPoint.serialize (EntryPoint.new m a)).sum % 256 = 0 ∧
    (EntryPoint.new m a).checksum
      = (256 - (EntryPoint.as_bytes
          { EntryPoint.new m a with checksum := 0 }).sum % 256) % 256 := by
  have h1 := entryPoint_base_sum m a
  have h2 := entryPoint_new_checksum m a
  have h3 := entryPoint_new_sum m a
  refine ⟨?_, ?_, ?_⟩
  · simp [EntryPoint.serialize, EntryPoint.as_bytes, EntryPoint.new,
      EntryPoint.base, le_length]
  · show (EntryPoint.new m a).as_bytes.sum % 256 = 0
    rw [h3, h2, h1]
    omega
  · rw [entryPoint_strip_checksum, h2, h1]

/-- C1 (counterexample). At handle 0 with status `NoErrorsDetected`, the
structure serializes to 13 bytes but the length byte written at the second
position is 11: the length byte does not equal the total number of bytes
emitted for the structure (it excludes the 2 trailing zero bytes). -/
theorem boot_length_byte_counterexample :
    SystemBootInformation.serialize ⟨0, .noErrorsDetected⟩
      = some [32, 11, 0, 0, 0, 0, 0, 0, 0, 0, 0, 0, 0] ∧
    ¬ (11 : Nat) = [32, 11, 0, 0, 0, 0, 0, 0, 0, 0, 0, 0, 0].length := by
  decide

/-- C1 (amended). For every `BootStatus` variant whose code is in range and
whose payload is at most 244 bytes, serializing a `SystemBootInformation`
emits: type byte 32, a length byte, a 2-byte little-endian handle, 6 zero
reserved bytes, the status byte, the variant's payload bytes, and 2 trailing
zero bytes; the length byte written at the second byte position equals the
number of bytes emitted up to and including the payload, i.e. the total
emitted for the structure minus the 2 trailing zero bytes. -/
theorem boot_serialize_layout (h : Nat) (st : BootStatus)
    (hv : st.valid) (hlen : (statusPayload st).length ≤ 244) :
    SystemBootInformation.serialize ⟨h, st⟩
      = some ([32, 11 + (statusPayload st).length] ++ le 2 h
          ++ List.replicate 6 0 ++ [statusByte st] ++ statusPayload st
          ++ [0, 0]) ∧
    11 + (statusPayload st).length
      = ([32, 11 + (statusPayload st).length] ++ le 2 h
          ++ List.replicate 6 0 ++ [statusByte st] ++ statusPayload st
          ++ [0, 0]).length - 2 :=
  ⟨bootSerialize_eq h st hv hlen, by simp [le_length]; omega⟩

/-- C1 (witness): the amended layout at handle 1 with
`PreviouslyRequestedImage([0xab])`. -/
theorem boot_serialize_layout_witness :
    SystemBootInformation.serialize ⟨1, .previouslyRequestedImage [0xab]⟩
      = some [32, 12, 1, 0, 0, 0, 0, 0, 0, 0, 7, 0xab, 0, 0] ∧
    (12 : Nat) = 14 - 2 := by
  have h := boot_serialize_layout 1 (.previouslyRequestedImage [0xab])
    trivial (by decide)
  exact ⟨h.1, rfl⟩


/-- C7 (counterexample). With an in-range vendor code (128) but a 245-byte
payload, serialization does not succeed: the length byte overflows and the
conversion faults, so "for codes inside those ranges serialization succeeds"
fails as stated. -/
theorem boot_payload_length_counterexample :
    SystemBootInformation.serialize
      ⟨0, .vendorSpecific 128 (List.replicate 245 0)⟩ = none := by
  decide

/-- C7 (amended). A `VendorSpecific` variant with code outside [128,191] or a
`ProductSpecific` variant with code below 192 faults during serialization,
surfaced to the caller; for codes inside those ranges, and payloads short
enough that the length byte fits (at most 244 bytes), serialization succeeds
and emits the code byte followed by the payload verbatim. -/
theorem boot_variant_codes (h c : Nat) (p : List Nat) :
    ((c < 128 ∨ 191 < c) →
      SystemBootInformation.serialize ⟨h, .vendorSpecific c p⟩ = none) ∧
    (c < 192 →
      SystemBootInformation.serialize ⟨h, .productSpecific c p⟩ = none) ∧
    (128 ≤ c → c ≤ 191 → p.length ≤ 244 →
      SystemBootInformation.serialize ⟨h, .vendorSpecific c p⟩
        = some ([32, 11 + p.length] ++ le 2 h ++ List.replicate 6 0
            ++ [c] ++ p ++ [0, 0])) ∧
    (192 ≤ c → p.length ≤ 244 →
      SystemBootInformation.serialize ⟨h, .productSpecific c p⟩
        = some ([32, 11 + p.length] ++ le 2 h ++ List.replicate 6 0
            ++ [c] ++ p ++ [0, 0])) := by
  refine ⟨?_, ?_, ?_, ?_⟩
  · intro hc
    have hne : ¬(128 ≤ c ∧ c ≤ 191) := by omega
    simp [SystemBootInformation.serialize, bootStatusBytes, hne]
  · intro hc
    have hne : ¬192 ≤ c := by omega
    simp [SystemBootInformation.serialize, bootStatusBytes, hne]
  · intro h1 h2 h3
    exact bootSerialize_eq h (.vendorSpecific c p) ⟨h1, h2⟩ h3
  · intro h1 h2
    exact bootSerialize_eq h (.productSpecific c p) h1 h2

/-- C7 (witness): vendor code 100 and product code 50 fault; vendor code 128
and product code 200 serialize the code byte followed by the payload. -/
theorem boot_variant_codes_witness :
    SystemBootInformation.serialize ⟨0, .vendorSpecific 100 [1]⟩ = none ∧
    SystemBootInformation.serialize ⟨0, .productSpecific 50 [1]⟩ = none ∧
    SystemBootInformation.serialize ⟨0, .vendorSpecific 128 [9]⟩
      = some [32, 12, 0, 0, 0, 0, 0, 0, 0, 0, 128, 9, 0, 0] ∧
    SystemBootInformation.serialize ⟨0, .productSpecific 200 [9]⟩
      = some [32, 12, 0, 0, 0, 0, 0, 0, 0, 0, 200, 9, 0, 0] :=
  ⟨(boot_variant_codes 0 100 [1]).1 (by omega),
   (boot_variant_codes 0 50 [1]).2.1 (by omega),
   (boot_variant_codes 0 128 [9]).2.2.1 (by omega) (by omega) (by decide),
   (boot_variant_codes 0 200 [9]).2.2.2 (by omega) (by decide)⟩

/-- C2 (counterexample). `OemStrings::add_string` does not fault at the
256th append: on an instance already holding 255 strings, appending another
succeeds and yields an instance holding 256 strings. -/
theorem oem_add_string_counterexample :
    OemStrings.add_string ⟨1, List.replicate 255 []⟩ []
      = ⟨1, List.replicate 256 []⟩ := by
  decide

/-- C2 (amended). For generic-facility structures the 256th append faults at
the append call (the index is never truncated or wrapped); for the
OEM-strings structure the append itself always succeeds, and the overflow
instead faults when the count byte is serialized. -/
theorem string_table_overflow (strings : List (List Nat)) (s : List Nat)
    (h : Nat) (hfull : strings.length = 255) :
    add_string strings s = none ∧
    OemStrings.add_string ⟨h, strings⟩ s = ⟨h, strings ++ [s]⟩ ∧
    OemStrings.serialize ⟨h, strings ++ [s]⟩ = none := by
  refine ⟨?_, rfl, ?_⟩
  · simp only [add_string, List.length_append, List.length_cons,
      List.length_nil]
    rw [if_neg (by omega)]
  · simp only [OemStrings.serialize, List.length_append, List.length_cons,
      List.length_nil]
    rw [if_neg (by omega)]

/-- C2 (witness): the overflow behaviour at a concrete instance holding 255
empty strings. -/
theorem string_table_overflow_witness :
    add_string (List.replicate 255 []) [] = none ∧
    OemStrings.add_string ⟨1, List.replicate 255 []⟩ []
      = ⟨1, List.replicate 255 [] ++ [[]]⟩ ∧
    OemStrings.serialize ⟨1, List.replicate 255 [] ++ [[]]⟩ = none :=
  string_table_overflow (List.replicate 255 []) [] 1 (by decide)

/-- C4 (confirmed). The k-th successful string append on a generic-facility
structure returns index k (1-based); serialization emits the fixed record,
then the strings in append order each followed by one zero byte plus one
extra terminating zero byte, and exactly two zero bytes after the record
when no string was added. -/
theorem generic_string_table (record s : List Nat)
    (strings : List (List Nat)) (k : Nat)
    (hk : strings.length + 1 = k) (hle : k ≤ 255) :
    add_string strings s = some (strings ++ [s], k) ∧
    (strings ≠ [] →
      serialize_structure_with_strings record strings
        = record ++ (strings.flatMap fun t => t ++ [0]) ++ [0]) ∧
    serialize_structure_with_strings record [] = record ++ [0, 0] := by
  subst hk
  refine ⟨?_, ?_, ?_⟩
  · simp only [add_string, List.length_append, List.length_cons,
      List.length_nil]
    rw [if_pos (by omega)]
  · intro hne
    cases strings with
    | nil => exact absurd rfl hne
    | cons a t => simp [serialize_structure_with_strings]
  · simp [serialize_structure_with_strings]

/-- C4 (witness): a second append returns index 2, and the string-table tail
behaviour at a concrete record. -/
theorem generic_string_table_witness :
    add_string [[65]] [66, 67] = some ([[65], [66, 67]], 2) ∧
    (([[65]] : List (List Nat)) ≠ [] →
      serialize_structure_with_strings [0, 20] [[65]]
        = [0, 20] ++ (([[65]] : List (List Nat)).flatMap fun t => t ++ [0])
            ++ [0]) ∧
    serialize_structure_with_strings [0, 20] [] = [0, 20] ++ [0, 0] :=
  generic_string_table [0, 20] [66, 67] [[65]] 2 (by decide) (by decide)

/-- C9 (counterexample). An `OemStrings` instance holding 256 strings does
not serialize to the claimed byte sequence: the count-byte conversion
faults. -/
theorem oem_serialize_overflow_counterexample :
    OemStrings.serialize ⟨1, List.replicate 256 []⟩ = none := by
  decide

/-- C9 (amended). For every `OemStrings` instance holding at most 255
strings, serialization emits: type byte 11, length byte 5, a 2-byte
little-endian handle, a 1-byte string count, each string in insertion order
followed by one zero byte, then one final zero byte; with zero strings only
a single terminating zero byte follows the count. -/
theorem oem_strings_serialize_bytes (h : Nat) (strings : List (List Nat))
    (hle : strings.length ≤ 255) :
    OemStrings.serialize ⟨h, strings⟩
      = some ([11, 5] ++ le 2 h ++ [strings.length]
          ++ (strings.flatMap fun s => s ++ [0]) ++ [0]) ∧
    OemStrings.serialize ⟨h, []⟩
      = some ([11, 5] ++ le 2 h ++ [0, 0]) := by
  constructor
  · simp only [OemStrings.serialize]
    rw [if_pos hle]
  · simp [OemStrings.serialize]

/-- C9 (witness): the end-to-end fixture (handle 1, strings
"My OEM string" and "foo") from the spec, plus the empty instance. -/
theorem oem_strings_serialize_bytes_witness :
    OemStrings.serialize
      ⟨1, [[77, 121, 32, 79, 69, 77, 32, 115, 116, 114, 105, 110, 103],
           [102, 111, 111]]⟩
      = some [11, 5, 1, 0, 2,
          77, 121, 32, 79, 69, 77, 32, 115, 116, 114, 105, 110, 103, 0,
          102, 111, 111, 0, 0] ∧
    OemStrings.serialize ⟨1, []⟩ = some [11, 5, 1, 0, 0, 0] := by
  have h := oem_strings_serialize_bytes 1
    [[77, 121, 32, 79, 69, 77, 32, 115, 116, 114, 105, 110, 103],
     [102, 111, 111]] (by decide)
  exact ⟨h.1, h.2⟩

/-- C8 (confirmed). For every generic-facility structure type, the byte size
of the serialized fixed record (header included) equals its spec constant,
independent of field (hence string) content — type 0 = 0x14, type 1 = 0x1B,
type 4 = 0x32, type 7 = 0x1B, type 9 = 0x13, type 16 = 0x17, type 17 = 0x64,
type 19 = 0x1F, type 20 = 0x23, type 44 = 0x74 — and the structure's length
byte is set to this size at construction. -/
theorem fixed_record_sizes :
    (∀ d : Type0Data, d.as_bytes.length = 0x14) ∧
    (∀ h : Nat, (Type0Data.new h).length = 0x14) ∧
    (∀ d : Type1Data, d.as_bytes.length = 0x1b) ∧
    (∀ h : Nat, (Type1Data.new h).length = 0x1b) ∧
    (∀ d : Type4Data, d.as_bytes.length = 0x32) ∧
    (∀ h : Nat, (Type4Data.new h).length = 0x32) ∧
    (∀ d : Type7Data, d.as_bytes.length = 0x1b) ∧
    (∀ h : Nat, (Type7Data.new h).length = 0x1b) ∧
    (∀ d : Type9Data, d.as_bytes.length = 0x13) ∧
    (∀ h : Nat, (Type9Data.new h).length = 0x13) ∧
    (∀ d : Type16Data, d.as_bytes.length = 0x17) ∧
    (∀ h : Nat, (Type16Data.new h).length = 0x17) ∧
    (∀ d : Type17Data, d.as_bytes.length = 0x64) ∧
    (∀ h : Nat, (Type17Data.new h).length = 0x64) ∧
    (∀ d : Type19Data, d.as_bytes.length = 0x1f) ∧
    (∀ h : Nat, (Type19Data.new h).length = 0x1f) ∧
    (∀ d : Type20Data, d.as_bytes.length = 0x23) ∧
    (∀ h : Nat, (Type20Data.new h).length = 0x23) ∧
    (∀ d : RiscvType44Data, d.as_bytes.length = 0x74) ∧
    (∀ h : Nat, (RiscvType44Data.new h).length = 0x74) := by
  and_intros <;> intro x <;>
    simp [Type0Data.as_bytes, Type0Data.new, Type1Data.as_bytes,
      Type1Data.new, Type4Data.as_bytes, Type4Data.new, Type7Data.as_bytes,
      Type7Data.new, Type9Data.as_bytes, Type9Data.new, Type16Data.as_bytes,
      Type16Data.new, Type17Data.as_bytes, Type17Data.new,
      Type19Data.as_bytes, Type19Data.new, Type20Data.as_bytes,
      Type20Data.new, RiscvType44Data.as_bytes, RiscvType44Data.new,
      le_length]

/-- Helper shared by the memory-device size theorems: for a size strictly
below the 32 GiB - 1 MiB threshold, `set_memory_size` stores the megabyte
count in the 16-bit `size` field and leaves every other field unchanged. -/
theorem set_memory_size_small (d : Type17Data) (n : Nat)
    (hn : n < gb 32 - mb 1) :
    MemoryDevice.set_memory_size d (some n)
      = some { d with size := to_mb n } := by
  have hgb : gb 32 = 34359738368 := by norm_num [gb]
  have hmb : mb 1 = 1048576 := by norm_num [mb]
  have hpow20 : (2 : Nat) ^ 20 = 1048576 := by norm_num
  have hto : to_mb n < 2 ^ 16 := by
    have hpow16 : (2 : Nat) ^ 16 = 65536 := by norm_num
    simp only [to_mb, hpow20, hpow16]
    omega
  simp only [MemoryDevice.set_memory_size]
  rw [if_neg (by omega), if_pos hto]

/-- C5 (counterexample). At size 2^52 bytes (which is at or above the
32 GiB - 1 MiB threshold) `set_memory_size` does not store the sentinel and
extended value: the megabyte count no longer fits the 32-bit extended field
and the conversion faults. -/
theorem memory_size_overflow_counterexample :
    MemoryDevice.set_memory_size (Type17Data.new 0) (some (2 ^ 52))
      = none := by
  decide

/-- C5 (amended). For a size at or above 32 GiB - 1 MiB whose megabyte count
fits the 32-bit extended field (size below 2^52), `set_memory_size` stores
sentinel 0x7FFF in the 16-bit size field and the size in megabytes in the
32-bit extended_size field; at or above 2^52 the conversion faults. For any
size below the threshold it stores the size in megabytes directly in the
16-bit size field; for an absent size it stores 0xFFFF with no extended
write. -/
theorem memory_device_size_boundary (d : Type17Data) (size : Nat) :
    (gb 32 - mb 1 ≤ size → to_mb size < 2 ^ 32 →
      MemoryDevice.set_memory_size d (some size)
        = some { d with size := 0x7fff, extended_size := to_mb size }) ∧
    (gb 32 - mb 1 ≤ size → ¬ to_mb size < 2 ^ 32 →
      MemoryDevice.set_memory_size d (some size) = none) ∧
    (size < gb 32 - mb 1 →
      MemoryDevice.set_memory_size d (some size)
        = some { d with size := to_mb size }) ∧
    MemoryDevice.set_memory_size d none
      = some { d with size := 0xffff } := by
  refine ⟨?_, ?_, fun hlt => set_memory_size_small d size hlt, rfl⟩
  · intro h1 h2
    simp only [MemoryDevice.set_memory_size]
    rw [if_pos h1, if_pos h2]
  · intro h1 h2
    simp only [MemoryDevice.set_memory_size]
    rw [if_pos h1, if_neg h2]

/-- C5 (witness): size exactly 32 GiB - 1 MiB takes the sentinel+extended
path, 32 GiB - 2 MiB takes the direct megabyte path, and an absent size
stores 0xFFFF. -/
theorem memory_device_size_boundary_witness :
    MemoryDevice.set_memory_size (Type17Data.new 0) (some (gb 32 - mb 1))
      = some { Type17Data.new 0 with
               size := 0x7fff
               extended_size := to_mb (gb 32 - mb 1) } ∧
    MemoryDevice.set_memory_size (Type17Data.new 0) (some (gb 32 - mb 2))
      = some { Type17Data.new 0 with size := to_mb (gb 32 - mb 2) } ∧
    MemoryDevice.set_memory_size (Type17Data.new 0) none
      = some { Type17Data.new 0 with size := 0xffff } :=
  ⟨(memory_device_size_boundary (Type17Data.new 0) (gb 32 - mb 1)).1
      (by decide) (by decide),
   (memory_device_size_boundary (Type17Data.new 0) (gb 32 - mb 2)).2.2.1
      (by decide),
   (memory_device_size_boundary (Type17Data.new 0) 0).2.2.2⟩

/-- C6 (confirmed). For any capacity of at least 2 TiB,
`set_memory_capacity` stores sentinel 0x8000_0000 in the 32-bit
maximum_capacity field and the capacity in bytes in the 64-bit extended
field; for any capacity below 2 TiB (including 2 TiB - 1 byte) it stores
the capacity in kilobytes in the 32-bit field and zero in the extended
field. -/
theorem memory_capacity_boundary (d : Type16Data) (cap : Nat) :
    (tb 2 ≤ cap →
      PhysicalMemoryArray.set_memory_capacity d cap
        = some { d with
                 maximum_capacity := 0x80000000
                 extended_maximum_capacity := cap }) ∧
    (cap < tb 2 →
      PhysicalMemoryArray.set_memory_capacity d cap
        = some { d with
                 maximum_capacity := cap / 1024
                 extended_maximum_capacity := 0 }) := by
  constructor
  · intro h1
    simp only [PhysicalMemoryArray.set_memory_capacity]
    rw [if_pos h1]
  · intro h1
    have htb : tb 2 = 2199023255552 := by norm_num [tb]
    have hkb : cap / 1024 < 2 ^ 32 := by
      have hpow : (2 : Nat) ^ 32 = 4294967296 := by norm_num
      omega
    simp only [PhysicalMemoryArray.set_memory_capacity]
    rw [if_neg (by omega), if_pos hkb]

/-- C6 (witness): capacity exactly 2 TiB takes the sentinel+extended path
and 2 TiB - 1 byte takes the kilobyte legacy path. -/
theorem memory_capacity_boundary_witness :
    PhysicalMemoryArray.set_memory_capacity (Type16Data.new 0) (tb 2)
      = some { Type16Data.new 0 with
               maximum_capacity := 0x80000000
               extended_maximum_capacity := tb 2 } ∧
    PhysicalMemoryArray.set_memory_capacity (Type16Data.new 0) (tb 2 - 1)
      = some { Type16Data.new 0 with
               maximum_capacity := (tb 2 - 1) / 1024
               extended_maximum_capacity := 0 } :=
  ⟨(memory_capacity_boundary (Type16Data.new 0) (tb 2)).1 (by decide),
   (memory_capacity_boundary (Type16Data.new 0) (tb 2 - 1)).2 (by decide)⟩

/-- C10 (confirmed). `set_memory_size` with an absent size, or with a size
below the 32 GiB - 1 MiB threshold, produces exactly the input record with
only the 16-bit size field replaced: the 32-bit extended_size field (and
every other field) is unchanged, so a previously stored extended_size value
persists. -/
theorem memory_size_frame (d : Type17Data) (n : Nat)
    (hn : n < gb 32 - mb 1) :
    MemoryDevice.set_memory_size d (some n)
      = some { d with size := to_mb n } ∧
    MemoryDevice.set_memory_size d none
      = some { d with size := 0xffff } ∧
    ({ d with size := to_mb n } : Type17Data).extended_size
      = d.extended_size ∧
    ({ d with size := 0xffff } : Type17Data).extended_size
      = d.extended_size :=
  ⟨set_memory_size_small d n hn, rfl, rfl, rfl⟩

/-- C10 (witness): on a record whose extended_size was previously set to
32768, setting a 4 MiB size and then an absent size leaves extended_size at
32768. -/
theorem memory_size_frame_witness :
    MemoryDevice.set_memory_size
        { Type17Data.new 0 with extended_size := 32768 } (some (mb 4))
      = some { { Type17Data.new 0 with extended_size := 32768 } with
               size := to_mb (mb 4) } ∧
    MemoryDevice.set_memory_size
        { Type17Data.new 0 with extended_size := 32768 } none
      = some { { Type17Data.new 0 with extended_size := 32768 } with
               size := 0xffff } ∧
    ({ { Type17Data.new 0 with extended_size := 32768 } with
        size := to_mb (mb 4) } : Type17Data).extended_size
      = ({ Type17Data.new 0 with
           extended_size := 32768 } : Type17Data).extended_size ∧
    ({ { Type17Data.new 0 with extended_size := 32768 } with
        size := 0xffff } : Type17Data).extended_size
      = ({ Type17Data.new 0 with
           extended_size := 32768 } : Type17Data).extended_size :=
  memory_size_frame { Type17Data.new 0 with extended_size := 32768 } (mb 4)
    (by decide)

end Smbios
